import Mathlib

/-!
Verification development for the `SunCalc` solar-position engine
(`src/unnamed/part_000`, a JavaScript class).

Shallow embedding conventions:

* JS `number` is modelled by `ℚ`; every decimal literal of the source is kept
  verbatim (Lean decimal literals over `ℚ` are exact rationals).
* A JS `Date` is modelled by its epoch value in milliseconds (`ℤ`).  The engine
  only uses proleptic-Gregorian calendar decomposition, which we implement with
  the standard civil-from-days / days-from-civil algorithms.  `toISOString`
  prefix comparisons `substring(0,19)` / `substring(0,10)` are modelled as
  floor-division of the epoch milliseconds by `1000` / `86400000`, which is
  exact for four-digit years (the engine's intended range).
* The host environment (trigonometric primitives, the host timezone offset as
  returned by `getTimezoneOffset()`, and the host clock used by `new Date()`)
  is a parameter `Env`.  `Math.acos` returns NaN outside `[-1, 1]`; this is
  modelled by `jsAcos` returning `none` there, and `none` then propagates to
  an `Invalid Date` (`none`) event timestamp, exactly as NaN does in JS.
  Inside the domain the value of `acos` is the abstract field `acosF`.
* The engine mutates the caller's `coordinates` object in `setLocation`;
  mutation is modelled by returning the updated coordinates alongside the
  updated engine state.
* `setDateTime` assigns `newDate`/`currentDate` without declaration; they are
  modelled as the locals they are evidently intended to be.
-/

namespace SunCalcModel

/-- Days since epoch 1970-01-01 of the proleptic-Gregorian date `(y, m, d)`,
`m` being a 1-based month.  `d` may lie outside the month; the result is
linear in `d`, matching JS `MakeDay` normalization. -/
def daysFromCivil (y m d : ℤ) : ℤ :=
  let y1 : ℤ := if m ≤ 2 then y - 1 else y
  let era : ℤ := Int.fdiv y1 400
  let yoe : ℤ := y1 - era * 400
  let mp : ℤ := Int.fmod (m + 9) 12
  let doy : ℤ := Int.fdiv (153 * mp + 2) 5 + d - 1
  let doe : ℤ := yoe * 365 + Int.fdiv yoe 4 - Int.fdiv yoe 100 + doy
  era * 146097 + doe - 719468

/-- Inverse of `daysFromCivil`: the `(year, month, day)` (1-based month) of a
day count since the epoch. -/
def civilFromDays (z : ℤ) : ℤ × ℤ × ℤ :=
  let z1 : ℤ := z + 719468
  let era : ℤ := Int.fdiv z1 146097
  let doe : ℤ := z1 - era * 146097
  let yoe : ℤ := Int.fdiv (doe - Int.fdiv doe 1460 + Int.fdiv doe 36524 - Int.fdiv doe 146096) 365
  let y : ℤ := yoe + era * 400
  let doy : ℤ := doe - (365 * yoe + Int.fdiv yoe 4 - Int.fdiv yoe 100)
  let mp : ℤ := Int.fdiv (5 * doy + 2) 153
  let d : ℤ := doy - Int.fdiv (153 * mp + 2) 5 + 1
  let m : ℤ := if mp < 10 then mp + 3 else mp - 9
  (if m ≤ 2 then y + 1 else y, m, d)

/-- The host environment: abstract trigonometric primitives (JS `Math`), the
host timezone offset in minutes as returned by `Date.prototype.getTimezoneOffset`
(UTC − local, constant in this model), and the host clock value used by a
zero-argument `new Date()`. -/
structure Env where
  sin : ℚ → ℚ
  cos : ℚ → ℚ
  tan : ℚ → ℚ
  acosF : ℚ → ℚ
  atan2 : ℚ → ℚ → ℚ
  pi : ℚ
  hostOff : ℤ
  hostNow : ℤ

/-- `Math.acos`: NaN (modelled as `none`) outside `[-1, 1]`, otherwise the
abstract in-domain value. -/
def jsAcos (e : Env) (x : ℚ) : Option ℚ :=
  if x < -1 ∨ 1 < x then none else some (e.acosF x)

/-- The host `Vec3` value type (used for `_latitude_trig_` and the
`getCoordinates` result). -/
structure Vec3Q where
  x : ℚ
  y : ℚ
  z : ℚ
deriving DecidableEq

/-- A caller-supplied coordinates object: `Vec2` (no `z` own-property,
modelled as `z = none`) or `Vec3` (`z = some altitude`). -/
structure Coords where
  x : ℚ
  y : ℚ
  z : Option ℚ
deriving DecidableEq

/-- The mutable fields of a `SunCalc` instance.  Event timestamps are
`Option ℤ` epoch milliseconds, `none` standing for JS `Invalid Date`
(reached when a NaN hour angle propagates).  `sun_elevation` is `Option ℚ`
for the same reason; `_last_date_` is stored as the epoch milliseconds of the
ISO string it holds. -/
structure SunCalcState where
  latitude : ℚ
  longitude : ℚ
  altitude : ℚ
  date : ℤ
  timezone : ℤ
  sunrise : Option ℤ
  sunset : Option ℤ
  solar_noon : Option ℤ
  solar_midnight : Option ℤ
  civil_dawn : Option ℤ
  civil_dusk : Option ℤ
  nautical_dawn : Option ℤ
  nautical_dusk : Option ℤ
  astronomical_dawn : Option ℤ
  astronomical_dusk : Option ℤ
  sun_elevation : Option ℚ
  sun_azimuth : ℚ
  latitude_trig : Vec3Q
  last_date : ℤ
deriving DecidableEq

/-- `toISOString().substring(0, 19)` comparison: the whole second of an
instant. -/
def secOf (ms : ℤ) : ℤ := Int.fdiv ms 1000

/-- `toISOString().substring(0, 10)` comparison: the UTC day of an instant. -/
def dayOf (ms : ℤ) : ℤ := Int.fdiv ms 86400000

/-- Days-since-epoch of the host-local day containing an instant. -/
def localDays (e : Env) (ms : ℤ) : ℤ := Int.fdiv (ms - e.hostOff * 60000) 86400000

/-- Milliseconds elapsed inside the host-local day containing an instant. -/
def localMsOfDay (e : Env) (ms : ℤ) : ℤ := Int.fmod (ms - e.hostOff * 60000) 86400000

/-- `Date.prototype.getFullYear` (host-local). -/
def getFullYear (e : Env) (ms : ℤ) : ℤ := (civilFromDays (localDays e ms)).1

/-- `Date.prototype.getMonth` (host-local, 0-based). -/
def getMonth (e : Env) (ms : ℤ) : ℤ := (civilFromDays (localDays e ms)).2.1 - 1

/-- `Date.prototype.getDate` (host-local day of month). -/
def getDate (e : Env) (ms : ℤ) : ℤ := (civilFromDays (localDays e ms)).2.2

/-- `Date.prototype.getHours` (host-local). -/
def getHours (e : Env) (ms : ℤ) : ℤ := Int.fdiv (localMsOfDay e ms) 3600000

/-- `Date.prototype.getMinutes` (host-local). -/
def getMinutes (e : Env) (ms : ℤ) : ℤ := Int.fdiv (Int.fmod (localMsOfDay e ms) 3600000) 60000

/-- `Date.prototype.getSeconds` (host-local). -/
def getSeconds (e : Env) (ms : ℤ) : ℤ := Int.fdiv (Int.fmod (localMsOfDay e ms) 60000) 1000

/-- `new Date(y, mo, d)` with host-local midnight components; `mo` is the JS
0-based month and, like `d`, is normalized as by `MakeDay`. -/
def makeLocalDate (e : Env) (y mo d : ℤ) : ℤ :=
  let ym : ℤ := y + Int.fdiv mo 12
  let mn : ℤ := Int.fmod mo 12
  daysFromCivil ym (mn + 1) d * 86400000 + e.hostOff * 60000

/-- The fractional year in radians used by `_updateStatic_`: elapsed time from
the start of the reference instant's (host-local) year to the start of the
*following* day, divided by the year's duration, times `2π`. -/
def staticFractYear (e : Env) (s : SunCalcState) : ℚ :=
  let y := getFullYear e s.date
  let startOfYear := makeLocalDate e y 0 1
  let startOfNextYear := makeLocalDate e (y + 1) 0 1
  let thisDate := makeLocalDate e y (getMonth e s.date) (getDate e s.date + 1)
  ((thisDate - startOfYear : ℤ) : ℚ) / ((startOfNextYear - startOfYear : ℤ) : ℚ) * (e.pi + e.pi)

/-- Equation of time (minutes), the 5-term truncated Fourier series shared by
both calculators. -/
def eqtimeOf (e : Env) (f : ℚ) : ℚ :=
  229.18 * (0.000075 + 0.001868 * e.cos f - 0.032077 * e.sin f
    - 0.014615 * e.cos (f + f) - 0.040849 * e.sin (f + f))

/-- Solar declination (radians), the truncated Fourier series shared by both
calculators. -/
def declinationOf (e : Env) (f : ℚ) : ℚ :=
  0.006918 - 0.399912 * e.cos f + 0.070257 * e.sin f - 0.006758 * e.cos (f + f)
    + 0.000907 * e.sin (f + f) - 0.002697 * e.cos (f * 3) + 0.00148 * e.sin (f * 3)

/-- The arccosine argument of `computeHourAngle` in `_updateStatic_` for a
given horizon threshold. -/
def hourAngleArg (e : Env) (s : SunCalcState) (threshold : ℚ) : ℚ :=
  let decl := declinationOf e (staticFractYear e s)
  let cosv := e.cos decl * s.latitude_trig.y
  let tanv := e.tan decl * s.latitude_trig.z
  let altitude := 2.076e-4 * s.altitude * 0.01745329
  (threshold - altitude) / cosv - tanv

/-- `computeHourAngle` of `_updateStatic_`: hour angle in degrees, `none`
when the arccosine argument leaves `[-1, 1]` (JS NaN). -/
def hourAngleOf (e : Env) (s : SunCalcState) (threshold : ℚ) : Option ℚ :=
  (jsAcos e (hourAngleArg e s threshold)).map (fun a => a * 57.2957795)

/-- `computeTime` of `_updateStatic_`: minutes from the start of the day for a
given hour angle in degrees. -/
def eventMinutes (e : Env) (s : SunCalcState) (hourAngle : ℚ) : ℚ :=
  720 - 4 * (s.longitude * 57.2957795 + hourAngle) - eqtimeOf e (staticFractYear e s)

/-- The `time_template` of `_updateStatic_`: host-local midnight of the
reference instant's day. -/
def timeTemplate (e : Env) (s : SunCalcState) : ℤ :=
  makeLocalDate e (getFullYear e s.date) (getMonth e s.date) (getDate e s.date)

/-- Anchoring a minutes-from-midnight value to the template:
`setMinutes(Math.floor(m))` then `setSeconds((m - Math.floor(m)) * 60)`
(JS `setSeconds` truncates its argument to an integer). -/
def eventDate (e : Env) (s : SunCalcState) (m : ℚ) : ℤ :=
  timeTemplate e s + (⌊m⌋ * 60 + ⌊(m - (⌊m⌋ : ℚ)) * 60⌋) * 1000

/-- `_updateStatic_`: the Daily Solar Parameters calculator.  Recomputes the
ten event timestamps from the state's reference instant and location, leaving
every other field unchanged. -/
def updateStatic (e : Env) (s : SunCalcState) : SunCalcState :=
  let hh := hourAngleOf e s (-0.0145381)
  let hc := hourAngleOf e s (-0.1045285)
  let hn := hourAngleOf e s (-0.2079117)
  let ha := hourAngleOf e s (-0.309017)
  { s with
    sunrise := hh.map (fun h => eventDate e s (eventMinutes e s h))
    sunset := hh.map (fun h => eventDate e s (eventMinutes e s (-h)))
    solar_noon := some (eventDate e s (eventMinutes e s 0))
    solar_midnight := some (eventDate e s (eventMinutes e s (-180)))
    civil_dawn := hc.map (fun h => eventDate e s (eventMinutes e s h))
    civil_dusk := hc.map (fun h => eventDate e s (eventMinutes e s (-h)))
    nautical_dawn := hn.map (fun h => eventDate e s (eventMinutes e s h))
    nautical_dusk := hn.map (fun h => eventDate e s (eventMinutes e s (-h)))
    astronomical_dawn := ha.map (fun h => eventDate e s (eventMinutes e s h))
    astronomical_dusk := ha.map (fun h => eventDate e s (eventMinutes e s (-h))) }

/-- The fractional year in radians used by `_updateDynamic_`: the *current*
instant's elapsed fraction of the year (not the next-day-shifted value of the
daily calculator). -/
def dynFractYear (e : Env) (s : SunCalcState) : ℚ :=
  let y := getFullYear e s.date
  let startOfYear := makeLocalDate e y 0 1
  let startOfNextYear := makeLocalDate e (y + 1) 0 1
  ((s.date - startOfYear : ℤ) : ℚ) / ((startOfNextYear - startOfYear : ℤ) : ℚ) * (e.pi + e.pi)

/-- The hour angle (radians) of `_updateDynamic_`. -/
def dynHourAngle (e : Env) (s : SunCalcState) : ℚ :=
  let time_offset := eqtimeOf e (dynFractYear e s) + 4 * s.longitude * 57.2957795 - (s.timezone : ℚ)
  let solar_time := (getHours e s.date : ℚ) * 60 + (getMinutes e s.date : ℚ)
    + (getSeconds e s.date : ℚ) * 0.01666667 + time_offset
  (solar_time * 0.25 - 180) * 0.01745329

/-- The zenith-referenced elevation (degrees) of `_updateDynamic_`, `none` when
the arccosine argument leaves `[-1, 1]` (JS NaN). -/
def dynZenith (e : Env) (s : SunCalcState) : Option ℚ :=
  let decl := declinationOf e (dynFractYear e s)
  (jsAcos e (s.latitude_trig.x * e.sin decl
      + s.latitude_trig.y * e.cos decl * e.cos (dynHourAngle e s))).map
    (fun a => a * 57.2957795)

/-- The atmospheric refraction correction of `_updateDynamic_`, applied to the
zenith-referenced elevation in degrees.  (Rational division by zero is `0`;
the source hits the `tan` denominator with nonzero rational arguments in every
statement proved below.) -/
def refractionOf (e : Env) (elevation : ℚ) : ℚ :=
  -0.0167 / e.tan (elevation + 10.3 / (elevation + 5.11))

/-- The azimuth (degrees) of `_updateDynamic_`. -/
def dynAzimuth (e : Env) (s : SunCalcState) : ℚ :=
  let decl := declinationOf e (dynFractYear e s)
  let declTan := e.sin decl / e.cos decl
  let h := dynHourAngle e s
  (e.pi + e.atan2 (e.sin h) (e.cos h * s.latitude_trig.x - declTan * s.latitude_trig.y))
    * 57.2957795

/-- `_updateDynamic_`: the Instantaneous Position calculator.  Recomputes the
stored sun elevation and azimuth, leaving every other field unchanged. -/
def updateDynamic (e : Env) (s : SunCalcState) : SunCalcState :=
  { s with
    sun_elevation := (dynZenith e s).map
      (fun elevation => 90 - elevation + refractionOf e elevation + 2.076e-4 * s.altitude)
    sun_azimuth := dynAzimuth e s }

/-- `timezone ? Math.floor(timezone) : this._timezone_`: the timezone a
`setLocation` call resolves.  A JS-falsy argument (absent, or the number `0`)
keeps the stored timezone; any other argument is floored. -/
def resolveTz (s : SunCalcState) (timezone : Option ℚ) : ℤ :=
  match timezone with
  | none => s.timezone
  | some t => if t = 0 then s.timezone else ⌊t⌋

/-- The recomputation condition of `setLocation`, applied to the already
degree-to-radian-scaled coordinates.  A missing `z` makes the altitude
comparison `NaN > 1e-2`, which is false. -/
def thresholdCrossed (s : SunCalcState) (c : Coords) (tz : ℤ) : Bool :=
  decide (1e-8 < |c.x - s.latitude|) || decide (1e-8 < |c.y - s.longitude|)
    || (match c.z with
        | none => false
        | some zv => decide (1e-2 < |zv - s.altitude|))
    || decide (s.timezone ≠ tz)

/-- `setLocation(coordinates, timezone)`.  The call scales the caller's
coordinates object in place (returned as the second component), and recomputes
both calculators exactly when `thresholdCrossed` holds. -/
def setLocation (e : Env) (s : SunCalcState) (coordinates : Coords) (timezone : Option ℚ) :
    SunCalcState × Coords :=
  let tz := resolveTz s timezone
  let c : Coords := { coordinates with x := coordinates.x * 0.01745329, y := coordinates.y * 0.01745329 }
  if thresholdCrossed s c tz then
    let s1 : SunCalcState :=
      { s with latitude := c.x, longitude := c.y, altitude := c.z.getD 0, timezone := tz
               latitude_trig := ⟨e.sin c.x, e.cos c.x, e.sin c.x / e.cos c.x⟩ }
    (updateDynamic e (updateStatic e s1), c)
  else (s, c)

/-- `setDateTime(date)`.  If the ISO second-prefix changed, store the new
instant and re-run the Instantaneous calculator; additionally, if the ISO
day-prefix of the *previous* stored instant differs from that of
`_last_date_`, set `_last_date_` to the previous stored instant and re-run the
Daily calculator. -/
def setDateTime (e : Env) (s : SunCalcState) (date : ℤ) : SunCalcState :=
  if secOf s.date ≠ secOf date then
    let s1 := updateDynamic e { s with date := date }
    if dayOf s.date ≠ dayOf s.last_date then
      updateStatic e { s1 with last_date := s.date }
    else s1
  else s

/-- The constructor.  `date` and `timezone` are the optional arguments; a
missing date is `new Date()` (the host clock), and a JS-falsy timezone
(absent or `0`) defaults to the negated host offset. -/
def construct (e : Env) (coordinates : Coords) (date : Option ℤ) (timezone : Option ℚ) :
    SunCalcState :=
  let lat := coordinates.x * 0.01745329
  let lon := coordinates.y * 0.01745329
  let d := date.getD e.hostNow
  let tz : ℤ :=
    match timezone with
    | none => -e.hostOff
    | some t => if t = 0 then -e.hostOff else ⌊t⌋
  let s0 : SunCalcState :=
    { latitude := lat, longitude := lon
      altitude := coordinates.z.getD 0
      date := d, timezone := tz
      sunrise := some 0, sunset := some 0, solar_noon := some 0, solar_midnight := some 0
      civil_dawn := some 0, civil_dusk := some 0, nautical_dawn := some 0, nautical_dusk := some 0
      astronomical_dawn := some 0, astronomical_dusk := some 0
      sun_elevation := some 0, sun_azimuth := 0
      latitude_trig := ⟨e.sin lat, e.cos lat, e.sin lat / e.cos lat⟩
      last_date := 0 }
  updateDynamic e (updateStatic e s0)

/-- `getCoordinates()`: location in degrees plus altitude. -/
def getCoordinates (s : SunCalcState) : Vec3Q :=
  ⟨s.latitude * 57.2957795, s.longitude * 57.2957795, s.altitude⟩

/-- `getTimezone()`. -/
def getTimezone (s : SunCalcState) : ℤ := s.timezone

/-- The timezone resolution shared by `getDateTime` and the ten event
accessors: a finite numeric argument (including `0`) is floored, otherwise the
stored timezone is used. -/
def accessorTz (s : SunCalcState) (timezone : Option ℚ) : ℤ :=
  match timezone with
  | none => s.timezone
  | some t => ⌊t⌋

/-- `getDateTime(timezone)`: the stored instant shifted by the requested
offset in minutes. -/
def getDateTime (s : SunCalcState) (timezone : Option ℚ) : ℤ :=
  s.date + accessorTz s timezone * 60000

/-- `getSunPosition()`: `Vec2(azimuth, elevation)`. -/
def getSunPosition (s : SunCalcState) : ℚ × Option ℚ :=
  (s.sun_azimuth, s.sun_elevation)

/-- `getSunrise(timezone)`; an `Invalid Date` cache entry stays invalid. -/
def getSunrise (s : SunCalcState) (timezone : Option ℚ) : Option ℤ :=
  s.sunrise.map (fun t => t + accessorTz s timezone * 60000)

/-- `getSunset(timezone)`. -/
def getSunset (s : SunCalcState) (timezone : Option ℚ) : Option ℤ :=
  s.sunset.map (fun t => t + accessorTz s timezone * 60000)

/-- `getSolarNoon(timezone)`. -/
def getSolarNoon (s : SunCalcState) (timezone : Option ℚ) : Option ℤ :=
  s.solar_noon.map (fun t => t + accessorTz s timezone * 60000)

/-- `getSolarMidnight(timezone)`. -/
def getSolarMidnight (s : SunCalcState) (timezone : Option ℚ) : Option ℤ :=
  s.solar_midnight.map (fun t => t + accessorTz s timezone * 60000)

/-- A concrete host environment with constant trigonometric primitives, used
to evaluate the engine on concrete inputs.  UTC host (`hostOff = 0`). -/
def envC : Env :=
  { sin := fun _ => 0, cos := fun _ => 1, tan := fun _ => 0, acosF := fun _ => 0
    atan2 := fun _ _ => 0, pi := 3.141592653589793, hostOff := 0, hostNow := 0 }

/-- A concrete host environment whose trigonometric primitives all depend on
their argument, used where an output must visibly change with the input. -/
def env2 : Env :=
  { sin := fun x => x, cos := fun x => x, tan := fun x => x, acosF := fun x => x
    atan2 := fun a b => a + b, pi := 3, hostOff := 0, hostNow := 0 }

/-- A concrete host environment matching real trigonometry at a high-latitude
polar-day evaluation point: `cos declination ≈ 0.917` and
`tan declination ≈ 0.4335` (June-solstice declination of about `0.409` rad). -/
def envP : Env :=
  { sin := fun _ => 0, cos := fun _ => 0.917, tan := fun _ => 0.4335, acosF := fun _ => 0
    atan2 := fun _ _ => 0, pi := 3, hostOff := 0, hostNow := 0 }

/-- A concrete host environment where `tan` returns `1e-9`, a value real
`tan` attains arbitrarily near each of its zeros — in particular the argument
of the refraction denominator crosses such zeros as the elevation approaches
the `-5.11°` singularity. -/
def envS : Env :=
  { sin := fun _ => 0, cos := fun _ => 1, tan := fun _ => 1e-9, acosF := fun _ => 0
    atan2 := fun _ _ => 0, pi := 3, hostOff := 0, hostNow := 0 }

/-- A concrete host environment for a host at UTC+2:
`getTimezoneOffset() = -120`. -/
def envH : Env := { envC with hostOff := -120 }

/-- A neutral concrete engine state used as the base of concrete scenarios. -/
def baseState : SunCalcState :=
  { latitude := 0, longitude := 0, altitude := 0, date := 0, timezone := 0
    sunrise := some 0, sunset := some 0, solar_noon := some 0, solar_midnight := some 0
    civil_dawn := some 0, civil_dusk := some 0, nautical_dawn := some 0, nautical_dusk := some 0
    astronomical_dawn := some 0, astronomical_dusk := some 0
    sun_elevation := some 0, sun_azimuth := 0
    latitude_trig := ⟨0, 1, 0⟩, last_date := 0 }

/-- Epoch milliseconds of 2024-03-20T12:00:00Z. -/
def dayAnoon : ℤ := daysFromCivil 2024 3 20 * 86400000 + 43200000

theorem envC_sin (x : ℚ) : envC.sin x = 0 := rfl

theorem envC_cos (x : ℚ) : envC.cos x = 1 := rfl

theorem envC_tan (x : ℚ) : envC.tan x = 0 := rfl

theorem envC_acosF (x : ℚ) : envC.acosF x = 0 := rfl

theorem envC_atan2 (x y : ℚ) : envC.atan2 x y = 0 := rfl

theorem envC_pi : envC.pi = 3.141592653589793 := rfl

theorem env2_sin (x : ℚ) : env2.sin x = x := rfl

theorem env2_cos (x : ℚ) : env2.cos x = x := rfl

theorem env2_tan (x : ℚ) : env2.tan x = x := rfl

theorem env2_acosF (x : ℚ) : env2.acosF x = x := rfl

theorem env2_atan2 (x y : ℚ) : env2.atan2 x y = x + y := rfl

theorem env2_pi : env2.pi = 3 := rfl

theorem envP_sin (x : ℚ) : envP.sin x = 0 := rfl

theorem envP_cos (x : ℚ) : envP.cos x = 0.917 := rfl

theorem envP_tan (x : ℚ) : envP.tan x = 0.4335 := rfl

theorem envP_acosF (x : ℚ) : envP.acosF x = 0 := rfl

theorem envS_sin (x : ℚ) : envS.sin x = 0 := rfl

theorem envS_cos (x : ℚ) : envS.cos x = 1 := rfl

theorem envS_tan (x : ℚ) : envS.tan x = 1e-9 := rfl

theorem envS_acosF (x : ℚ) : envS.acosF x = 0 := rfl

theorem envS_atan2 (x y : ℚ) : envS.atan2 x y = 0 := rfl

theorem envH_sin (x : ℚ) : envH.sin x = 0 := rfl

theorem envH_cos (x : ℚ) : envH.cos x = 1 := rfl

theorem us_latitude (e : Env) (s : SunCalcState) : (updateStatic e s).latitude = s.latitude := rfl

theorem us_longitude (e : Env) (s : SunCalcState) : (updateStatic e s).longitude = s.longitude := rfl

theorem us_altitude (e : Env) (s : SunCalcState) : (updateStatic e s).altitude = s.altitude := rfl

theorem us_date (e : Env) (s : SunCalcState) : (updateStatic e s).date = s.date := rfl

theorem us_timezone (e : Env) (s : SunCalcState) : (updateStatic e s).timezone = s.timezone := rfl

theorem us_latitude_trig (e : Env) (s : SunCalcState) :
    (updateStatic e s).latitude_trig = s.latitude_trig := rfl

theorem us_last_date (e : Env) (s : SunCalcState) : (updateStatic e s).last_date = s.last_date := rfl

theorem us_sun_elevation (e : Env) (s : SunCalcState) :
    (updateStatic e s).sun_elevation = s.sun_elevation := rfl

theorem us_sun_azimuth (e : Env) (s : SunCalcState) :
    (updateStatic e s).sun_azimuth = s.sun_azimuth := rfl

theorem us_sunrise (e : Env) (s : SunCalcState) :
    (updateStatic e s).sunrise
      = (hourAngleOf e s (-0.0145381)).map (fun h => eventDate e s (eventMinutes e s h)) := rfl

theorem us_sunset (e : Env) (s : SunCalcState) :
    (updateStatic e s).sunset
      = (hourAngleOf e s (-0.0145381)).map (fun h => eventDate e s (eventMinutes e s (-h))) := rfl

theorem us_solar_noon (e : Env) (s : SunCalcState) :
    (updateStatic e s).solar_noon = some (eventDate e s (eventMinutes e s 0)) := rfl

theorem us_solar_midnight (e : Env) (s : SunCalcState) :
    (updateStatic e s).solar_midnight = some (eventDate e s (eventMinutes e s (-180))) := rfl

theorem us_civil_dawn (e : Env) (s : SunCalcState) :
    (updateStatic e s).civil_dawn
      = (hourAngleOf e s (-0.1045285)).map (fun h => eventDate e s (eventMinutes e s h)) := rfl

theorem us_civil_dusk (e : Env) (s : SunCalcState) :
    (updateStatic e s).civil_dusk
      = (hourAngleOf e s (-0.1045285)).map (fun h => eventDate e s (eventMinutes e s (-h))) := rfl

theorem us_nautical_dawn (e : Env) (s : SunCalcState) :
    (updateStatic e s).nautical_dawn
      = (hourAngleOf e s (-0.2079117)).map (fun h => eventDate e s (eventMinutes e s h)) := rfl

theorem us_nautical_dusk (e : Env) (s : SunCalcState) :
    (updateStatic e s).nautical_dusk
      = (hourAngleOf e s (-0.2079117)).map (fun h => eventDate e s (eventMinutes e s (-h))) := rfl

theorem us_astronomical_dawn (e : Env) (s : SunCalcState) :
    (updateStatic e s).astronomical_dawn
      = (hourAngleOf e s (-0.309017)).map (fun h => eventDate e s (eventMinutes e s h)) := rfl

theorem us_astronomical_dusk (e : Env) (s : SunCalcState) :
    (updateStatic e s).astronomical_dusk
      = (hourAngleOf e s (-0.309017)).map (fun h => eventDate e s (eventMinutes e s (-h))) := rfl

theorem ud_latitude (e : Env) (s : SunCalcState) : (updateDynamic e s).latitude = s.latitude := rfl

theorem ud_longitude (e : Env) (s : SunCalcState) : (updateDynamic e s).longitude = s.longitude := rfl

theorem ud_altitude (e : Env) (s : SunCalcState) : (updateDynamic e s).altitude = s.altitude := rfl

theorem ud_date (e : Env) (s : SunCalcState) : (updateDynamic e s).date = s.date := rfl

theorem ud_timezone (e : Env) (s : SunCalcState) : (updateDynamic e s).timezone = s.timezone := rfl

theorem ud_latitude_trig (e : Env) (s : SunCalcState) :
    (updateDynamic e s).latitude_trig = s.latitude_trig := rfl

theorem ud_last_date (e : Env) (s : SunCalcState) : (updateDynamic e s).last_date = s.last_date := rfl

theorem ud_sunrise (e : Env) (s : SunCalcState) : (updateDynamic e s).sunrise = s.sunrise := rfl

theorem ud_sunset (e : Env) (s : SunCalcState) : (updateDynamic e s).sunset = s.sunset := rfl

theorem ud_solar_noon (e : Env) (s : SunCalcState) :
    (updateDynamic e s).solar_noon = s.solar_noon := rfl

theorem ud_solar_midnight (e : Env) (s : SunCalcState) :
    (updateDynamic e s).solar_midnight = s.solar_midnight := rfl

theorem ud_civil_dawn (e : Env) (s : SunCalcState) :
    (updateDynamic e s).civil_dawn = s.civil_dawn := rfl

theorem ud_civil_dusk (e : Env) (s : SunCalcState) :
    (updateDynamic e s).civil_dusk = s.civil_dusk := rfl

theorem ud_nautical_dawn (e : Env) (s : SunCalcState) :
    (updateDynamic e s).nautical_dawn = s.nautical_dawn := rfl

theorem ud_nautical_dusk (e : Env) (s : SunCalcState) :
    (updateDynamic e s).nautical_dusk = s.nautical_dusk := rfl

theorem ud_astronomical_dawn (e : Env) (s : SunCalcState) :
    (updateDynamic e s).astronomical_dawn = s.astronomical_dawn := rfl

theorem ud_astronomical_dusk (e : Env) (s : SunCalcState) :
    (updateDynamic e s).astronomical_dusk = s.astronomical_dusk := rfl

theorem ud_sun_elevation (e : Env) (s : SunCalcState) :
    (updateDynamic e s).sun_elevation
      = (dynZenith e s).map
          (fun elevation => 90 - elevation + refractionOf e elevation + 2.076e-4 * s.altitude) := rfl

theorem ud_sun_azimuth (e : Env) (s : SunCalcState) :
    (updateDynamic e s).sun_azimuth = dynAzimuth e s := rfl

/-- Splitting a minute count into `Math.floor` whole minutes plus a truncated
seconds part lands on the floor of the corresponding whole-second count. -/
theorem floor_minute_split (m : ℚ) : ⌊m⌋ * 60 + ⌊(m - (⌊m⌋ : ℚ)) * 60⌋ = ⌊60 * m⌋ := by
  have h : (60 : ℚ) * m = (m - (⌊m⌋ : ℚ)) * 60 + ((60 * ⌊m⌋ : ℤ) : ℚ) := by
    push_cast
    ring
  rw [h, Int.floor_add_int]
  omega

/-- Engine constructed at 2024-03-20T12:00:00Z (UTC host). -/
def c1s0 : SunCalcState := construct envC ⟨45, 10, some 0⟩ (some dayAnoon) (some 60)

/-- State after a same-day `setDateTime` one second later. -/
def c1s1 : SunCalcState := setDateTime envC c1s0 (dayAnoon + 1000)

/-- State after a further `setDateTime` crossing into 2024-03-21. -/
def c1s2 : SunCalcState := setDateTime envC c1s1 (dayAnoon + 86400000 + 1000)

/-- Helper for concrete scenarios: under `envC`, for a state whose latitude
trig is `(0, 1, 0)`, altitude `0` and longitude `10°` (in radians), the
computed sunrise is the state's day template plus `40974000` ms
(682 minutes 54 seconds). -/
theorem us_sunrise_envC (s : SunCalcState) (T : ℤ)
    (hTrig : s.latitude_trig = ⟨0, 1, 0⟩) (hAlt : s.altitude = 0)
    (hLon : s.longitude = 10 * 0.01745329)
    (hT : timeTemplate envC s = T) :
    (updateStatic envC s).sunrise = some (T + 40974000) := by
  have hha : hourAngleOf envC s (-0.0145381) = some 0 := by
    norm_num [hourAngleOf, hourAngleArg, jsAcos, envC_cos, envC_tan, envC_acosF, hTrig, hAlt]
  have hm : eventMinutes envC s 0 = 3414520873722089/5000000000000 := by
    norm_num [eventMinutes, eqtimeOf, envC_cos, envC_sin, hLon]
  have hf1 : (⌊(3414520873722089/5000000000000 : ℚ)⌋ : ℤ) = 682 := by
    with_unfolding_all decide
  have hf2 : (⌊((3414520873722089/5000000000000 : ℚ) - ((682 : ℤ) : ℚ)) * 60⌋ : ℤ) = 54 := by
    with_unfolding_all decide
  rw [us_sunrise, hha]
  simp only [Option.map_some']
  rw [eventDate, hm, hf1, hf2, hT]
  norm_num

/-- C1 (amended): a `setDateTime` whose instant lies in a new whole second
always re-runs the Instantaneous calculator, but re-runs the Daily calculator
only when the *previous* stored instant's UTC day differs from the UTC day of
the `_last_date_` marker, and then sets the marker to the previous stored
instant (not to the new day).  The comparison does not involve the newly
supplied instant, so the Daily recompute for a day crossing is deferred to the
next effective call. -/
theorem setDateTime_daily_lagged (e : Env) (s : SunCalcState) (d : ℤ) :
    setDateTime e s d =
      if secOf d = secOf s.date then s
      else if dayOf s.date = dayOf s.last_date then updateDynamic e { s with date := d }
      else updateStatic e { updateDynamic e { s with date := d } with last_date := s.date } := by
  by_cases h1 : secOf d = secOf s.date
  · simp [setDateTime, h1]
  · have h1x : secOf s.date ≠ secOf d := fun h => h1 h.symm
    by_cases h2 : dayOf s.date = dayOf s.last_date
    · simp [setDateTime, h1, h1x, h2]
    · simp [setDateTime, h1, h1x, h2]

/-- C1 counterexample: construct at 2024-03-20T12:00:00Z, step to
12:00:01 the same day, then step across midnight to 2024-03-21T12:00:01Z.
The boundary-crossing call leaves the Daily Solar Parameters untouched: the
stored sunrise still belongs to 2024-03-20 (a fresh Daily run at the new state
would move it by one day), so after the day boundary the sunrise accessor
returns a timestamp computed for the previous calendar day — refuting the
claim that the Daily calculator is re-run during the same call that crosses
the boundary. -/
theorem daily_freshness_cex :
    dayOf c1s2.date ≠ dayOf c1s1.date ∧ c1s2.sunrise = c1s1.sunrise ∧
      (updateStatic envC c1s2).sunrise ≠ c1s2.sunrise := by
  have hd0 : c1s0.date = dayAnoon := by
    simp [c1s0, construct, ud_date, us_date]
  have hl0 : c1s0.last_date = 0 := by
    simp [c1s0, construct, ud_last_date, us_last_date]
  have hTrig0 : c1s0.latitude_trig = ⟨0, 1, 0⟩ := by
    norm_num [c1s0, construct, ud_latitude_trig, us_latitude_trig, envC_sin, envC_cos]
  have hAlt0 : c1s0.altitude = 0 := by
    simp [c1s0, construct, ud_altitude, us_altitude]
  have hLon0 : c1s0.longitude = 10 * 0.01745329 := by
    simp [c1s0, construct, ud_longitude, us_longitude]
  have c1 : secOf c1s0.date ≠ secOf (dayAnoon + 1000) := by rw [hd0]; decide
  have c2 : dayOf c1s0.date ≠ dayOf c1s0.last_date := by rw [hd0, hl0]; decide
  have e1 : c1s1 = updateStatic envC
      { updateDynamic envC { c1s0 with date := dayAnoon + 1000 } with last_date := c1s0.date } := by
    simp [c1s1, setDateTime, c1, c2]
  have h11 : c1s1.date = dayAnoon + 1000 := by rw [e1]; simp [us_date, ud_date]
  have h12 : c1s1.last_date = c1s0.date := by rw [e1]; simp [us_last_date]
  have hTrig1 : c1s1.latitude_trig = ⟨0, 1, 0⟩ := by
    rw [e1]; simp [us_latitude_trig, ud_latitude_trig, hTrig0]
  have hAlt1 : c1s1.altitude = 0 := by rw [e1]; simp [us_altitude, ud_altitude, hAlt0]
  have hLon1 : c1s1.longitude = 10 * 0.01745329 := by
    rw [e1]; simp [us_longitude, ud_longitude, hLon0]
  have c3 : secOf c1s1.date ≠ secOf (dayAnoon + 86400000 + 1000) := by rw [h11]; decide
  have c4 : ¬dayOf c1s1.date ≠ dayOf c1s1.last_date := by rw [h11, h12, hd0]; decide
  have e2 : c1s2 = updateDynamic envC { c1s1 with date := dayAnoon + 86400000 + 1000 } := by
    simp [c1s2, setDateTime, c3, c4]
  have h21 : c1s2.date = dayAnoon + 86400000 + 1000 := by rw [e2]; simp [ud_date]
  have hT1 : c1s1.sunrise = some 1710933774000 := by
    rw [e1]
    refine us_sunrise_envC _ 1710892800000 ?_ ?_ ?_ ?_
    · simp [ud_latitude_trig, hTrig0]
    · simp [ud_altitude, hAlt0]
    · simp [ud_longitude, hLon0]
    · have h4 : getFullYear envC (dayAnoon + 1000) = 2024 := by decide
      have h5 : getMonth envC (dayAnoon + 1000) = 2 := by decide
      have h6 : getDate envC (dayAnoon + 1000) = 20 := by decide
      have h7 : makeLocalDate envC 2024 2 20 = 1710892800000 := by decide
      simp [timeTemplate, us_date, ud_date, h4, h5, h6, h7]
  refine ⟨?_, ?_, ?_⟩
  · rw [h21, h11]; decide
  · rw [e2]; simp [ud_sunrise]
  · have hT2 : (updateStatic envC c1s2).sunrise = some 1711020174000 := by
      refine us_sunrise_envC _ 1710979200000 ?_ ?_ ?_ ?_
      · rw [e2]; simp [ud_latitude_trig, hTrig1]
      · rw [e2]; simp [ud_altitude, hAlt1]
      · rw [e2]; simp [ud_longitude, hLon1]
      · have h4 : getFullYear envC (dayAnoon + 86400000 + 1000) = 2024 := by decide
        have h5 : getMonth envC (dayAnoon + 86400000 + 1000) = 2 := by decide
        have h6 : getDate envC (dayAnoon + 86400000 + 1000) = 21 := by decide
        have h7 : makeLocalDate envC 2024 2 21 = 1710979200000 := by decide
        simp [timeTemplate, h21, h4, h5, h6, h7]
    have hS2 : c1s2.sunrise = some 1710933774000 := by
      rw [e2]; simp [ud_sunrise, hT1]
    rw [hT2, hS2]
    decide

/-- A stored state at latitude 45°, timezone 60, used for `setLocation`
scenarios. -/
def c2state : SunCalcState := { baseState with latitude := 45 * 0.01745329, timezone := 60 }

/-- A stored state whose latitude is exactly `1e-9` rad below 45°. -/
def c2stateB : SunCalcState := { baseState with latitude := 45 * 0.01745329 - 1e-9, timezone := 60 }

/-- A stored state with altitude 100 m. -/
def c10state : SunCalcState := { baseState with altitude := 100 }

/-- C2 (amended): `setLocation` with a three-component coordinates object
updates the stored location, LatitudeTrig and timezone and re-runs both
calculators if and only if the scaled latitude or longitude differs from the
stored value by more than `1e-8` rad, or the altitude differs by more than
`1e-2` m, or the *resolved* timezone — the floor of the supplied value when
that value is present and nonzero, the stored timezone otherwise — differs
from the stored one; otherwise the engine state is left unchanged. -/
theorem setLocation_thresholds (e : Env) (s : SunCalcState) (c : Coords) (tz : Option ℚ)
    (z : ℚ) (hz : c.z = some z) :
    (setLocation e s c tz).1 =
      if 1e-8 < |c.x * 0.01745329 - s.latitude| ∨ 1e-8 < |c.y * 0.01745329 - s.longitude|
          ∨ 1e-2 < |z - s.altitude| ∨ resolveTz s tz ≠ s.timezone then
        updateDynamic e (updateStatic e
          { s with latitude := c.x * 0.01745329, longitude := c.y * 0.01745329,
                   altitude := z, timezone := resolveTz s tz,
                   latitude_trig := ⟨e.sin (c.x * 0.01745329), e.cos (c.x * 0.01745329),
                     e.sin (c.x * 0.01745329) / e.cos (c.x * 0.01745329)⟩ })
      else s := by
  obtain ⟨cx, cy, cz⟩ := c
  cases hz
  by_cases hP : 1e-8 < |cx * 0.01745329 - s.latitude| ∨ 1e-8 < |cy * 0.01745329 - s.longitude|
      ∨ 1e-2 < |z - s.altitude| ∨ resolveTz s tz ≠ s.timezone
  · rw [if_pos hP]
    have hb : thresholdCrossed s ⟨cx * 0.01745329, cy * 0.01745329, some z⟩ (resolveTz s tz) = true := by
      rcases hP with h | h | h | h
      · simp [thresholdCrossed, h]
      · simp [thresholdCrossed, h]
      · simp [thresholdCrossed, h]
      · simp [thresholdCrossed, Ne.symm h]
    simp [setLocation, hb]
  · rw [if_neg hP]
    push_neg at hP
    obtain ⟨h1, h2, h3, h4⟩ := hP
    have hb : thresholdCrossed s ⟨cx * 0.01745329, cy * 0.01745329, some z⟩ (resolveTz s tz) = false := by
      simp [thresholdCrossed, not_lt.2 h1, not_lt.2 h2, not_lt.2 h3, h4.symm]
    simp [setLocation, hb]

/-- C2 witness: with a stored latitude exactly `1e-9` rad below the scaled
requested latitude and everything else unchanged, the `setLocation` call is a
no-op, instantiating the amended threshold characterization. -/
theorem setLocation_thresholds_witness :
    (setLocation envC c2stateB ⟨45, 0, some 0⟩ none).1 = c2stateB := by
  refine (setLocation_thresholds envC c2stateB ⟨45, 0, some 0⟩ none 0 rfl).trans (if_neg ?_)
  have habs : |(1:ℚ)/1000000000| = 1/1000000000 := abs_of_pos (by norm_num)
  norm_num [c2stateB, baseState, resolveTz, habs]

/-- C2 counterexample: the stored timezone is 60 and the call supplies
timezone `0` with identical coordinates.  The supplied timezone differs from
the stored one, yet the call is a no-op — `0` is JS-falsy, so line 162 of the
source keeps the stored timezone — refuting the claim that a differing
supplied timezone always forces an update and recomputation. -/
theorem setLocation_tz_zero_cex :
    c2state.timezone ≠ 0 ∧ (setLocation envC c2state ⟨45, 0, some 0⟩ (some 0)).1 = c2state := by
  constructor
  · simp [c2state, baseState]
  · have hb : thresholdCrossed c2state ⟨45 * 0.01745329, 0, some 0⟩
        (resolveTz c2state (some 0)) = false := by
      norm_num [thresholdCrossed, resolveTz, c2state, baseState]
    simp [setLocation, hb]

/-- C9: every `setLocation` call scales the caller's coordinates object in
place — `x` and `y` are multiplied by `0.01745329` — regardless of whether any
threshold is crossed, with `z` untouched. -/
theorem setLocation_mutates (e : Env) (s : SunCalcState) (c : Coords) (tz : Option ℚ) :
    (setLocation e s c tz).2 = { c with x := c.x * 0.01745329, y := c.y * 0.01745329 } := by
  simp only [setLocation]
  split <;> rfl

/-- C10: for a two-component coordinates object (`z` absent), the
recomputation decision of `setLocation` is exactly the latitude / longitude /
timezone condition — the altitude comparison is `NaN > 1e-2`, which is false,
so an altitude mismatch alone never triggers — and when another threshold does
trigger, the stored altitude is reset to `0`. -/
theorem setLocation_vec2 (e : Env) (s : SunCalcState) (c : Coords) (tz : Option ℚ)
    (hz : c.z = none) :
    (setLocation e s c tz).1 =
      if 1e-8 < |c.x * 0.01745329 - s.latitude| ∨ 1e-8 < |c.y * 0.01745329 - s.longitude|
          ∨ resolveTz s tz ≠ s.timezone then
        updateDynamic e (updateStatic e
          { s with latitude := c.x * 0.01745329, longitude := c.y * 0.01745329,
                   altitude := 0, timezone := resolveTz s tz,
                   latitude_trig := ⟨e.sin (c.x * 0.01745329), e.cos (c.x * 0.01745329),
                     e.sin (c.x * 0.01745329) / e.cos (c.x * 0.01745329)⟩ })
      else s := by
  obtain ⟨cx, cy, cz⟩ := c
  cases hz
  by_cases hP : 1e-8 < |cx * 0.01745329 - s.latitude| ∨ 1e-8 < |cy * 0.01745329 - s.longitude|
      ∨ resolveTz s tz ≠ s.timezone
  · rw [if_pos hP]
    have hb : thresholdCrossed s ⟨cx * 0.01745329, cy * 0.01745329, none⟩ (resolveTz s tz) = true := by
      rcases hP with h | h | h
      · simp [thresholdCrossed, h]
      · simp [thresholdCrossed, h]
      · simp [thresholdCrossed, Ne.symm h]
    simp [setLocation, hb]
  · rw [if_neg hP]
    push_neg at hP
    obtain ⟨h1, h2, h3⟩ := hP
    have hb : thresholdCrossed s ⟨cx * 0.01745329, cy * 0.01745329, none⟩ (resolveTz s tz) = false := by
      simp [thresholdCrossed, not_lt.2 h1, not_lt.2 h2, h3.symm]
    simp [setLocation, hb]

/-- C10 witness: a two-component `setLocation` call onto a state whose stored
altitude is 100 m (so the implied altitude 0 differs by far more than the
threshold) is still a no-op when latitude, longitude and timezone match. -/
theorem setLocation_vec2_witness :
    (setLocation envC c10state ⟨0, 0, none⟩ none).1 = c10state := by
  refine (setLocation_vec2 envC c10state ⟨0, 0, none⟩ none rfl).trans (if_neg ?_)
  norm_num [c10state, baseState, resolveTz]

/-- A state with a small `cos(latitude)` entry, under which the `env2`
instantaneous position stays inside the arccosine domain. -/
def c3state : SunCalcState := { baseState with latitude_trig := ⟨0, 1/100, 0⟩ }

/-- C3: a `setDateTime` whose instant agrees with the stored one up to whole
seconds is a complete no-op (in particular azimuth and elevation are
unchanged); otherwise the stored instant becomes the new instant and the
stored instantaneous position is the Instantaneous calculator's output for
the new instant. -/
theorem setDateTime_second_granularity (e : Env) (s : SunCalcState) (d : ℤ) :
    (secOf d = secOf s.date → setDateTime e s d = s) ∧
    (secOf d ≠ secOf s.date →
      (setDateTime e s d).date = d ∧
      (setDateTime e s d).sun_elevation = (updateDynamic e { s with date := d }).sun_elevation ∧
      (setDateTime e s d).sun_azimuth = (updateDynamic e { s with date := d }).sun_azimuth) := by
  constructor
  · intro h
    simp [setDateTime, h]
  · intro h
    have hx : secOf s.date ≠ secOf d := fun hh => h hh.symm
    by_cases h2 : dayOf s.date = dayOf s.last_date
    · simp [setDateTime, hx, h2, ud_date]
    · simp [setDateTime, hx, h2, us_date, ud_date, us_sun_elevation, us_sun_azimuth]

/-- C3 witness: crossing a one-second boundary (epoch 0 to epoch 1000 ms)
updates the stored instant, recomputes the instantaneous position, and the
stored elevation genuinely changes. -/
theorem setDateTime_second_granularity_witness :
    (setDateTime env2 c3state 1000).date = 1000 ∧
    (setDateTime env2 c3state 1000).sun_elevation
      = (updateDynamic env2 { c3state with date := 1000 }).sun_elevation ∧
    (setDateTime env2 c3state 1000).sun_elevation ≠ c3state.sun_elevation := by
  obtain ⟨h1, h2, _⟩ := (setDateTime_second_granularity env2 c3state 1000).2 (by decide)
  refine ⟨h1, h2, ?_⟩
  rw [h2]
  with_unfolding_all decide

/-- `Math.acos` yields NaN (modelled `none`) whenever its argument leaves
`[-1, 1]`. -/
theorem jsAcos_none (e : Env) (x : ℚ) (h : 1 < x ∨ x < -1) : jsAcos e x = none := by
  rcases h with h | h <;> simp [jsAcos, h]

/-- An 80°-latitude state (polar-day conditions at June-solstice
declination). -/
def c4state : SunCalcState :=
  { baseState with latitude := 1.396, latitude_trig := ⟨0.9848, 0.1736, 5.671⟩ }

/-- The 80°-latitude state at 10 m altitude. -/
def c4stateB : SunCalcState :=
  { baseState with latitude := 1.396, latitude_trig := ⟨0.9848, 0.1736, 5.671⟩, altitude := 10 }

/-- C4 (amended): the Daily calculator applies no saturation whatsoever.
Whenever a threshold's arccosine argument leaves `[-1, 1]`, the hour angle is
NaN and the corresponding pair of event timestamps is stored as Invalid Date
(`none`), which the event accessors then return unchanged. -/
theorem hour_angle_no_saturation (e : Env) (s : SunCalcState) :
    ((1 < hourAngleArg e s (-0.0145381) ∨ hourAngleArg e s (-0.0145381) < -1) →
      (updateStatic e s).sunrise = none ∧ (updateStatic e s).sunset = none ∧
      getSunrise (updateStatic e s) none = none ∧ getSunset (updateStatic e s) none = none) ∧
    ((1 < hourAngleArg e s (-0.1045285) ∨ hourAngleArg e s (-0.1045285) < -1) →
      (updateStatic e s).civil_dawn = none ∧ (updateStatic e s).civil_dusk = none) ∧
    ((1 < hourAngleArg e s (-0.2079117) ∨ hourAngleArg e s (-0.2079117) < -1) →
      (updateStatic e s).nautical_dawn = none ∧ (updateStatic e s).nautical_dusk = none) ∧
    ((1 < hourAngleArg e s (-0.309017) ∨ hourAngleArg e s (-0.309017) < -1) →
      (updateStatic e s).astronomical_dawn = none ∧ (updateStatic e s).astronomical_dusk = none) := by
  refine ⟨fun h => ?_, fun h => ?_, fun h => ?_, fun h => ?_⟩ <;>
    simp [us_sunrise, us_sunset, us_civil_dawn, us_civil_dusk, us_nautical_dawn,
      us_nautical_dusk, us_astronomical_dawn, us_astronomical_dusk,
      hourAngleOf, jsAcos_none e _ h, getSunrise, getSunset]

/-- C4 counterexample: at 80° latitude under June-solstice declination values
the horizon arccosine argument is below `-1`, and the sunrise accessor
returns Invalid Date (`none`) — refuting the claim that a saturation policy
keeps domain-error values out of accessor output. -/
theorem hour_angle_nan_cex :
    hourAngleArg envP c4state (-0.0145381) < -1 ∧
      getSunrise (updateStatic envP c4state) none = none := by
  with_unfolding_all decide

/-- C4 witness: the amended no-saturation theorem applied at the
80°-latitude, 10 m-altitude state, whose horizon argument is out of range. -/
theorem hour_angle_no_saturation_witness :
    (updateStatic envP c4stateB).sunrise = none ∧ (updateStatic envP c4stateB).sunset = none ∧
      getSunrise (updateStatic envP c4stateB) none = none ∧
      getSunset (updateStatic envP c4stateB) none = none :=
  (hour_angle_no_saturation envP c4stateB).1 (Or.inr (by with_unfolding_all decide))

/-- C5 (amended): the refraction correction is applied exactly as the formula
`-0.0167 / tan(elevation + 10.3/(elevation + 5.11))`, with no clamp or
special case; whenever the zenith angle is defined, the stored elevation is
`90 - zenith + refraction + altitudeCorrection` with that raw term. -/
theorem refraction_unguarded (e : Env) (s : SunCalcState) (elev : ℚ)
    (h : dynZenith e s = some elev) :
    (updateDynamic e s).sun_elevation
      = some (90 - elev + (-0.0167 / e.tan (elev + 10.3 / (elev + 5.11))) + 2.076e-4 * s.altitude) := by
  rw [ud_sun_elevation, h]
  simp [refractionOf]

/-- C5 counterexample: with `tan` returning `1e-9` — a value real `tan`
attains arbitrarily close to each of its zeros, which the refraction
denominator's argument crosses as the elevation nears `-5.11°` — the stored
elevation returned by `getSunPosition` is `-16699910°`, far beyond any
physical bound: no clamping or special-casing limits the correction. -/
theorem refraction_unbounded_cex :
    (getSunPosition (updateDynamic envS baseState)).2 = some (-16699910) ∧
      (-16699910 : ℚ) < -1000000 := by
  have hz : dynZenith envS baseState = some 0 := by
    norm_num [dynZenith, jsAcos, envS_sin, envS_cos, envS_acosF, baseState]
  constructor
  · rw [getSunPosition]
    simp only [ud_sun_elevation, hz, Option.map_some']
    norm_num [refractionOf, envS_tan, baseState]
  · norm_num

/-- C5 witness: the unguarded-refraction theorem applied at the `envS`
base state, whose zenith angle evaluates to `0`. -/
theorem refraction_unguarded_witness :
    (updateDynamic envS baseState).sun_elevation
      = some (90 - 0 + (-0.0167 / envS.tan (0 + 10.3 / (0 + 5.11))) + 2.076e-4 * baseState.altitude) := by
  have hz : dynZenith envS baseState = some 0 := by
    norm_num [dynZenith, jsAcos, envS_sin, envS_cos, envS_acosF, baseState]
  exact refraction_unguarded envS baseState 0 hz

/-- C6 (amended): the stored timezone of a freshly constructed engine is the
floor of the supplied offset when that offset is present and nonzero;
a supplied `0` is JS-falsy and — like an omitted argument — is replaced by the
negated host offset resolved at construction. -/
theorem construct_timezone (e : Env) (c : Coords) (d : Option ℤ) (tz : Option ℚ) :
    getTimezone (construct e c d tz)
      = tz.elim (-e.hostOff) (fun t => if t = 0 then -e.hostOff else ⌊t⌋) := by
  cases tz <;> simp [construct, getTimezone, ud_timezone, us_timezone, Option.elim]

/-- C6 counterexample: on a UTC+2 host (`getTimezoneOffset() = -120`),
constructing with a supplied timezone of `0` minutes stores `120`, not `0` —
refuting the claim that a supplied offset of 0 is stored as 0. -/
theorem construct_tz_zero_cex :
    getTimezone (construct envH ⟨45, 0, some 0⟩ (some 0) (some 0)) = 120 ∧ (120 : ℤ) ≠ 0 := by
  constructor
  · with_unfolding_all decide
  · decide

/-- C8 (amended): `getCoordinates` returns the constructor's degree inputs
multiplied by `0.01745329 × 57.2957795`, a constant distinct from `1`
(≈ `0.99999985540`), so the degrees-to-radians and radians-to-degrees
conversions do not compose to the identity; the altitude is returned
exactly. -/
theorem getCoordinates_roundtrip (e : Env) (c : Coords) (d : Option ℤ) (tz : Option ℚ) :
    getCoordinates (construct e c d tz)
      = ⟨c.x * (0.01745329 * 57.2957795), c.y * (0.01745329 * 57.2957795), c.z.getD 0⟩ ∧
    (0.01745329 * 57.2957795 : ℚ) ≠ 1 := by
  constructor
  · simp [getCoordinates, construct, ud_latitude, us_latitude, ud_longitude, us_longitude,
      ud_altitude, us_altitude, mul_assoc]
  · norm_num

/-- C8 counterexample: constructing at latitude 45° and reading it back does
not return 45° (it returns `45 × 0.01745329 × 57.2957795 ≈ 44.9999935°`). -/
theorem getCoordinates_roundtrip_cex :
    (getCoordinates (construct envC ⟨45, 0, some 0⟩ (some 0) (some 60))).x ≠ 45 := by
  with_unfolding_all decide

/-- Anchoring a minute value `m` to the template by
`setMinutes(Math.floor(m))` plus truncated seconds equals the template plus
`m` minutes truncated to a whole second. -/
theorem eventDate_floorsec (e : Env) (s : SunCalcState) (m : ℚ) :
    eventDate e s m = timeTemplate e s + 1000 * ⌊60 * m⌋ := by
  rw [eventDate, floor_minute_split]
  ring

/-- C7: on every Daily run in which the four hour angles are defined, each of
the ten stored event timestamps is the reference day's midnight plus
`m = 720 − 4×(longitudeDeg + H) − eqtime` minutes (truncated to the whole
second the minute/second split produces), with `H` the threshold's hour angle
for the dawn events, its negation for the dusk events, `0` for solar noon and
`−180` for solar midnight. -/
theorem event_time_conversion (e : Env) (s : SunCalcState) (hh hc hn ha : ℚ)
    (Hh : hourAngleOf e s (-0.0145381) = some hh)
    (Hc : hourAngleOf e s (-0.1045285) = some hc)
    (Hn : hourAngleOf e s (-0.2079117) = some hn)
    (Ha : hourAngleOf e s (-0.309017) = some ha) :
    (updateStatic e s).sunrise = some (timeTemplate e s + 1000 * ⌊60 * eventMinutes e s hh⌋) ∧
    (updateStatic e s).sunset = some (timeTemplate e s + 1000 * ⌊60 * eventMinutes e s (-hh)⌋) ∧
    (updateStatic e s).solar_noon = some (timeTemplate e s + 1000 * ⌊60 * eventMinutes e s 0⌋) ∧
    (updateStatic e s).solar_midnight
      = some (timeTemplate e s + 1000 * ⌊60 * eventMinutes e s (-180)⌋) ∧
    (updateStatic e s).civil_dawn = some (timeTemplate e s + 1000 * ⌊60 * eventMinutes e s hc⌋) ∧
    (updateStatic e s).civil_dusk = some (timeTemplate e s + 1000 * ⌊60 * eventMinutes e s (-hc)⌋) ∧
    (updateStatic e s).nautical_dawn = some (timeTemplate e s + 1000 * ⌊60 * eventMinutes e s hn⌋) ∧
    (updateStatic e s).nautical_dusk
      = some (timeTemplate e s + 1000 * ⌊60 * eventMinutes e s (-hn)⌋) ∧
    (updateStatic e s).astronomical_dawn
      = some (timeTemplate e s + 1000 * ⌊60 * eventMinutes e s ha⌋) ∧
    (updateStatic e s).astronomical_dusk
      = some (timeTemplate e s + 1000 * ⌊60 * eventMinutes e s (-ha)⌋) := by
  refine ⟨?_, ?_, ?_, ?_, ?_, ?_, ?_, ?_, ?_, ?_⟩
  · rw [us_sunrise, Hh]; simp only [Option.map_some']; rw [eventDate_floorsec]
  · rw [us_sunset, Hh]; simp only [Option.map_some']; rw [eventDate_floorsec]
  · rw [us_solar_noon, eventDate_floorsec]
  · rw [us_solar_midnight, eventDate_floorsec]
  · rw [us_civil_dawn, Hc]; simp only [Option.map_some']; rw [eventDate_floorsec]
  · rw [us_civil_dusk, Hc]; simp only [Option.map_some']; rw [eventDate_floorsec]
  · rw [us_nautical_dawn, Hn]; simp only [Option.map_some']; rw [eventDate_floorsec]
  · rw [us_nautical_dusk, Hn]; simp only [Option.map_some']; rw [eventDate_floorsec]
  · rw [us_astronomical_dawn, Ha]; simp only [Option.map_some']; rw [eventDate_floorsec]
  · rw [us_astronomical_dusk, Ha]; simp only [Option.map_some']; rw [eventDate_floorsec]

/-- C7 witness: at the epoch base state under `envC`, all four hour angles
are defined (each arccosine argument is the threshold itself) and the stored
sunrise is midnight plus `⌊60 × (720 − eqtime)⌋` seconds
= 43374 s = 12:02:54 behind the day template. -/
theorem event_time_conversion_witness :
    (updateStatic envC baseState).sunrise = some 43374000 := by
  have Hh : hourAngleOf envC baseState (-0.0145381) = some 0 := by
    norm_num [hourAngleOf, hourAngleArg, jsAcos, envC_cos, envC_tan, envC_acosF, baseState]
  have Hc : hourAngleOf envC baseState (-0.1045285) = some 0 := by
    norm_num [hourAngleOf, hourAngleArg, jsAcos, envC_cos, envC_tan, envC_acosF, baseState]
  have Hn : hourAngleOf envC baseState (-0.2079117) = some 0 := by
    norm_num [hourAngleOf, hourAngleArg, jsAcos, envC_cos, envC_tan, envC_acosF, baseState]
  have Ha : hourAngleOf envC baseState (-0.309017) = some 0 := by
    norm_num [hourAngleOf, hourAngleArg, jsAcos, envC_cos, envC_tan, envC_acosF, baseState]
  obtain ⟨h1, h2, h3, h4, h5, h6, h7, h8, h9, h10⟩ :=
    event_time_conversion envC baseState 0 0 0 0 Hh Hc Hn Ha
  rw [h1]
  have hT : timeTemplate envC baseState = 0 := by decide
  have hm : eventMinutes envC baseState 0 = 282384441/390625 := by
    norm_num [eventMinutes, eqtimeOf, envC_cos, envC_sin, baseState]
  have hf : (⌊(60 : ℚ) * (282384441/390625)⌋ : ℤ) = 43374 := by
    with_unfolding_all decide
  rw [hT, hm, hf]
  norm_num

end SunCalcModel
